import Mathlib

/-!
Verification of the deployment-configuration and health-check core of the
LCARS-at-Home repository, shallowly embedded from
scripts/deploy_config.py, scripts/health_check.py and lcars_guide.py.

Python truthiness of optional strings and ports is modelled explicitly:
a string field is truthy when present and non-empty, a port field when
present and non-zero.  Network and container I/O is passed in as oracle
functions, so the pure decision logic is embedded exactly.
-/

namespace LCARS

/-- Embeds the ServiceConfig dataclass of scripts/deploy_config.py
(lines 21-35), field for field, with Python Optional values as Option. -/
structure ServiceConfig where
  name : String
  description : String
  default_host : String
  default_port : Int
  health_check_url : String
  required : Bool
  can_use_existing : Bool
  detected_host : Option String := none
  detected_port : Option Int := none
  use_existing : Bool := false
  custom_host : Option String := none
  custom_port : Option Int := none
deriving Repr, DecidableEq

/-- Python truthiness of an Optional[str]: truthy iff present and non-empty. -/
def strTruthy : Option String → Bool
  | none => false
  | some s => s != ""

/-- Python truthiness of an Optional[int]: truthy iff present and non-zero. -/
def intTruthy : Option Int → Bool
  | none => false
  | some n => n != 0

/-- Embeds ServiceConfig.effective_host (deploy_config.py lines 37-52):
custom_host if truthy, else detected_host if use_existing and truthy,
else default_host. -/
def ServiceConfig.effective_host (s : ServiceConfig) : String :=
  if strTruthy s.custom_host then s.custom_host.getD ""
  else if s.use_existing && strTruthy s.detected_host then s.detected_host.getD ""
  else s.default_host

/-- Embeds ServiceConfig.effective_port (deploy_config.py lines 54-64):
custom_port if truthy, elif detected_port truthy, else default_port. -/
def ServiceConfig.effective_port (s : ServiceConfig) : Int :=
  if intTruthy s.custom_port then s.custom_port.getD 0
  else if intTruthy s.detected_port then s.detected_port.getD 0
  else s.default_port

/-- Embeds ServiceConfig.connection_string (deploy_config.py lines 66-69). -/
def ServiceConfig.connection_string (s : ServiceConfig) : String :=
  s.effective_host ++ ":" ++ toString s.effective_port

end LCARS

namespace LCARS

/-- C1 — effective host precedence, as resolvable from the code: custom_host
wins when truthy (independent of use_existing); else detected_host when
use_existing is true and detected_host truthy; else default_host; hence when
use_existing is false and no custom_host is set, the effective host is the
default and never a differing detected_host.  (Amended from the claim: with a
custom_host set, the effective host can coincide with a detected_host that
differs from default_host.) -/
theorem c1_effective_host (s : ServiceConfig) :
    (∀ h : String, s.custom_host = some h → h ≠ "" →
      ∀ b : Bool, ServiceConfig.effective_host { s with use_existing := b } = h) ∧
    (strTruthy s.custom_host = false → s.use_existing = true →
      ∀ h : String, s.detected_host = some h → h ≠ "" → s.effective_host = h) ∧
    (strTruthy s.custom_host = false →
      (s.use_existing = false ∨ strTruthy s.detected_host = false) →
      s.effective_host = s.default_host) ∧
    (strTruthy s.custom_host = false → s.use_existing = false →
      ∀ h : String, s.detected_host = some h → h ≠ s.default_host →
        s.effective_host ≠ h) := by
  refine ⟨?_, ?_, ?_, ?_⟩
  · intro h hc hne b
    simp [ServiceConfig.effective_host, strTruthy, hc, hne]
  · intro hc hu h hd hne
    simp only [ServiceConfig.effective_host, hc, hu, hd]
    simp [strTruthy, hne]
  · intro hc hcase
    rcases hcase with hu | hd
    · simp [ServiceConfig.effective_host, hc, hu]
    · simp [ServiceConfig.effective_host, hc, hd]
  · intro hc hu h hd hne
    have : s.effective_host = s.default_host := by
      simp [ServiceConfig.effective_host, hc, hu]
    rw [this]
    exact fun e => hne e.symm

/-- C1 witness: the theorem applied at concrete states, discharging every
hypothesis of each conjunct. -/
theorem c1_effective_host_witness :
    (ServiceConfig.effective_host
      { name := "PostgreSQL", description := "", default_host := "localhost",
        default_port := 5432, health_check_url := "", required := true,
        can_use_existing := true, custom_host := some "db.example.com",
        use_existing := true } = "db.example.com") ∧
    (ServiceConfig.effective_host
      { name := "Redis", description := "", default_host := "localhost",
        default_port := 6379, health_check_url := "", required := false,
        can_use_existing := true, detected_host := some "127.0.0.1",
        use_existing := true } = "127.0.0.1") ∧
    (ServiceConfig.effective_host
      { name := "Ollama", description := "", default_host := "localhost",
        default_port := 11434, health_check_url := "", required := true,
        can_use_existing := true, detected_host := some "127.0.0.1",
        use_existing := false } = "localhost") ∧
    (ServiceConfig.effective_host
      { name := "Ollama", description := "", default_host := "localhost",
        default_port := 11434, health_check_url := "", required := true,
        can_use_existing := true, detected_host := some "127.0.0.1",
        use_existing := false } ≠ "127.0.0.1") := by
  refine ⟨?_, ?_, ?_, ?_⟩
  · have h := (c1_effective_host
      { name := "PostgreSQL", description := "", default_host := "localhost",
        default_port := 5432, health_check_url := "", required := true,
        can_use_existing := true, custom_host := some "db.example.com",
        use_existing := true }).1 "db.example.com" rfl (by decide) true
    exact h
  · exact (c1_effective_host
      { name := "Redis", description := "", default_host := "localhost",
        default_port := 6379, health_check_url := "", required := false,
        can_use_existing := true, detected_host := some "127.0.0.1",
        use_existing := true }).2.1 (by decide) rfl "127.0.0.1" rfl (by decide)
  · exact (c1_effective_host
      { name := "Ollama", description := "", default_host := "localhost",
        default_port := 11434, health_check_url := "", required := true,
        can_use_existing := true, detected_host := some "127.0.0.1",
        use_existing := false }).2.2.1 (by decide) (Or.inl rfl)
  · exact (c1_effective_host
      { name := "Ollama", description := "", default_host := "localhost",
        default_port := 11434, health_check_url := "", required := true,
        can_use_existing := true, detected_host := some "127.0.0.1",
        use_existing := false }).2.2.2 (by decide) rfl "127.0.0.1" rfl (by decide)

/-- C1 counterexample: with use_existing = false but custom_host set to the
same address that detection found, the effective host does equal a
detected_host that differs from default_host, refuting the claim as stated. -/
theorem c1_counterexample :
    ServiceConfig.effective_host
      { name := "PostgreSQL", description := "", default_host := "localhost",
        default_port := 5432, health_check_url := "", required := true,
        can_use_existing := true, detected_host := some "10.0.0.5",
        detected_port := some 5432, use_existing := false,
        custom_host := some "10.0.0.5" } = "10.0.0.5" ∧
    ("10.0.0.5" : String) ≠ "localhost" := by
  exact ⟨by decide, by decide⟩

/-- C2 — effective port precedence: custom_port when truthy (independent of
use_existing), else detected_port when truthy, else default_port; a port of
0 or None is never treated as set and falls through to the next tier. -/
theorem c2_effective_port (s : ServiceConfig) :
    (∀ p : Int, s.custom_port = some p → p ≠ 0 →
      ∀ b : Bool, ServiceConfig.effective_port { s with use_existing := b } = p) ∧
    ((s.custom_port = none ∨ s.custom_port = some 0) →
      ∀ p : Int, s.detected_port = some p → p ≠ 0 → s.effective_port = p) ∧
    ((s.custom_port = none ∨ s.custom_port = some 0) →
      (s.detected_port = none ∨ s.detected_port = some 0) →
      s.effective_port = s.default_port) ∧
    (∀ b : Bool, ServiceConfig.effective_port { s with use_existing := b } =
      s.effective_port) := by
  refine ⟨?_, ?_, ?_, ?_⟩
  · intro p hc hne b
    simp [ServiceConfig.effective_port, intTruthy, hc, hne]
  · intro hc p hd hne
    rcases hc with hc | hc <;>
      · simp only [ServiceConfig.effective_port, intTruthy, hc, hd]
        simp [hne]
  · intro hc hd
    rcases hc with hc | hc <;> rcases hd with hd | hd <;>
      simp [ServiceConfig.effective_port, intTruthy, hc, hd]
  · intro b
    simp [ServiceConfig.effective_port]

/-- C2 witness: the theorem applied at concrete states, discharging every
hypothesis of each conjunct. -/
theorem c2_effective_port_witness :
    (ServiceConfig.effective_port
      { name := "n8n", description := "", default_host := "localhost",
        default_port := 5678, health_check_url := "", required := true,
        can_use_existing := false, custom_port := some 15678,
        detected_port := some 5678, use_existing := false } = 15678) ∧
    (ServiceConfig.effective_port
      { name := "Redis", description := "", default_host := "localhost",
        default_port := 6379, health_check_url := "", required := false,
        can_use_existing := true, custom_port := some 0,
        detected_port := some 6380 } = 6380) ∧
    (ServiceConfig.effective_port
      { name := "Whisper STT", description := "", default_host := "localhost",
        default_port := 10300, health_check_url := "", required := false,
        can_use_existing := true, custom_port := some 0,
        detected_port := none } = 10300) := by
  refine ⟨?_, ?_, ?_⟩
  · exact (c2_effective_port
      { name := "n8n", description := "", default_host := "localhost",
        default_port := 5678, health_check_url := "", required := true,
        can_use_existing := false, custom_port := some 15678,
        detected_port := some 5678, use_existing := false }).1 15678 rfl
        (by decide) false
  · exact (c2_effective_port
      { name := "Redis", description := "", default_host := "localhost",
        default_port := 6379, health_check_url := "", required := false,
        can_use_existing := true, custom_port := some 0,
        detected_port := some 6380 }).2.1 (Or.inr rfl) 6380 rfl (by decide)
  · exact (c2_effective_port
      { name := "Whisper STT", description := "", default_host := "localhost",
        default_port := 10300, health_check_url := "", required := false,
        can_use_existing := true, custom_port := some 0,
        detected_port := none }).2.2.1 (Or.inr rfl) (Or.inl rfl)

/-- Outcome of a urllib.request.urlopen call as seen by the caller:
either the call returns a response object, or it raises HTTPError (carrying
the status code and a reason phrase), or URLError (non-HTTP network failure,
carrying a reason), or some other exception. -/
inductive HttpOutcome where
  | response (status : Nat)
  | httpError (code : Nat) (reason : String)
  | urlError (reason : String)
  | otherError (msg : String)
deriving Repr, DecidableEq

/-- Models the dispatch performed by urllib with the default opener: urlopen
returns normally only when the final (post-redirect) response status is 2xx;
every other final status is raised as urllib.error.HTTPError carrying the
code. -/
def urlopenOutcome (status : Nat) (reason : String) : HttpOutcome :=
  if 200 ≤ status ∧ status ≤ 299 then .response status
  else .httpError status reason

/-- Embeds check_http_endpoint of deploy_config.py (lines 182-208): a
returned response is healthy when its status is below 500; an HTTPError is
healthy exactly for codes 401, 403, 404 and otherwise unhealthy with the
code in the message; a URLError is unhealthy with the reason; any other
exception is unhealthy with its text. -/
def check_http_endpoint : HttpOutcome → Bool × Option String
  | .response status =>
      if status < 500 then (true, none)
      else (false, some ("HTTP " ++ toString status))
  | .httpError code _ =>
      if code = 401 ∨ code = 403 ∨ code = 404 then (true, none)
      else (false, some ("HTTP " ++ toString code))
  | .urlError reason => (false, some ("Connection failed: " ++ reason))
  | .otherError msg => (false, some msg)

/-- Outcome of a requests.get call: the requests library returns a response
for every HTTP status (it does not raise on 4xx/5xx), or raises a
connection error, a timeout, or some other exception. -/
inductive RequestsOutcome where
  | response (status : Nat)
  | connError
  | timeout
  | otherError (msg : String)
deriving Repr, DecidableEq

/-- Embeds the requests branch of check_http_endpoint in health_check.py
(lines 202-216): any status below 500 is healthy, 500 and above unhealthy
with the code in the message, network failures unhealthy with an error
text.  Elapsed-time measurement is omitted. -/
def hc_check_http_requests : RequestsOutcome → Bool × Option String
  | .response status =>
      if status < 500 then (true, none)
      else (false, some ("HTTP " ++ toString status))
  | .connError => (false, some "Connection refused")
  | .timeout => (false, some "Timeout")
  | .otherError msg => (false, some msg)

/-- Embeds the urllib fallback branch of check_http_endpoint in
health_check.py (lines 217-230): a returned response with status below 500
is healthy; every URLError — and HTTPError is a subclass of URLError, so
every raised HTTP error status, 404 included — is unhealthy with the reason
text. -/
def hc_check_http_urllib : HttpOutcome → Bool × Option String
  | .response status =>
      if status < 500 then (true, none)
      else (false, some ("HTTP " ++ toString status))
  | .httpError _ reason => (false, some reason)
  | .urlError reason => (false, some reason)
  | .otherError msg => (false, some msg)

/-- C3 (amended) — HTTP probe classification per implementation.  In
deploy_config.check_http_endpoint: a 2xx response is healthy; a raised HTTP
error status is healthy exactly for 401, 403 and 404, and otherwise
unhealthy with the status code in the message; network failures are
unhealthy with the error text.  In health_check.check_http_endpoint with the
requests backend: every status below 500 is healthy and 500+ is unhealthy
with the code in the message.  In its urllib fallback, every raised HTTP
error status (404 included) is unhealthy with the reason text. -/
theorem c3_http_classification (status : Nat) (reason : String) :
    (200 ≤ status → status ≤ 299 →
      check_http_endpoint (urlopenOutcome status reason) = (true, none)) ∧
    (status = 401 ∨ status = 403 ∨ status = 404 →
      check_http_endpoint (urlopenOutcome status reason) = (true, none)) ∧
    (¬ (200 ≤ status ∧ status ≤ 299) →
      ¬ (status = 401 ∨ status = 403 ∨ status = 404) →
      check_http_endpoint (urlopenOutcome status reason) =
        (false, some ("HTTP " ++ toString status))) ∧
    (check_http_endpoint (.urlError reason) =
      (false, some ("Connection failed: " ++ reason))) ∧
    (status < 500 →
      hc_check_http_requests (.response status) = (true, none)) ∧
    (500 ≤ status →
      hc_check_http_requests (.response status) =
        (false, some ("HTTP " ++ toString status))) ∧
    (hc_check_http_requests .connError = (false, some "Connection refused")) ∧
    (¬ (200 ≤ status ∧ status ≤ 299) →
      hc_check_http_urllib (urlopenOutcome status reason) =
        (false, some reason)) := by
  refine ⟨?_, ?_, ?_, rfl, ?_, ?_, rfl, ?_⟩
  · intro h1 h2
    have hlt : status < 500 := by omega
    simp [urlopenOutcome, check_http_endpoint, h1, h2, hlt]
  · intro h
    have hno : ¬ (200 ≤ status ∧ status ≤ 299) := by
      rcases h with h | h | h <;> omega
    simp [urlopenOutcome, check_http_endpoint, hno, h]
  · intro hno hcodes
    simp [urlopenOutcome, check_http_endpoint, hno, hcodes]
  · intro h
    simp [hc_check_http_requests, h]
  · intro h
    have : ¬ status < 500 := by omega
    simp [hc_check_http_requests, this]
  · intro hno
    simp [urlopenOutcome, hc_check_http_urllib, hno]

/-- C3 witness: the theorem applied at statuses 204, 404, 418 and 500,
discharging every hypothesis of each conjunct. -/
theorem c3_http_classification_witness :
    (check_http_endpoint (urlopenOutcome 204 "No Content") = (true, none)) ∧
    (check_http_endpoint (urlopenOutcome 404 "Not Found") = (true, none)) ∧
    (check_http_endpoint (urlopenOutcome 418 "Teapot") =
      (false, some "HTTP 418")) ∧
    (hc_check_http_requests (.response 404) = (true, none)) ∧
    (hc_check_http_requests (.response 500) = (false, some "HTTP 500")) ∧
    (hc_check_http_urllib (urlopenOutcome 404 "Not Found") =
      (false, some "Not Found")) := by
  refine ⟨?_, ?_, ?_, ?_, ?_, ?_⟩
  · exact (c3_http_classification 204 "No Content").1 (by decide) (by decide)
  · exact (c3_http_classification 404 "Not Found").2.1 (by decide)
  · exact (c3_http_classification 418 "Teapot").2.2.1 (by decide) (by decide)
  · exact (c3_http_classification 404 "Not Found").2.2.2.2.1 (by decide)
  · exact (c3_http_classification 500 "err").2.2.2.2.2.1 (by decide)
  · exact (c3_http_classification 404 "Not Found").2.2.2.2.2.2.2 (by decide)

/-- C3 counterexample: a server answering 400 — below 500 — reaches
deploy_config.check_http_endpoint as a raised HTTPError (urlopen only
returns for 2xx) and is classified unhealthy, refuting the claim that every
status code below 500 is healthy; likewise a 404 under the urllib fallback
of health_check.py is classified unhealthy. -/
theorem c3_counterexample :
    check_http_endpoint (urlopenOutcome 400 "Bad Request") =
      (false, some "HTTP 400") ∧
    (400 : Nat) < 500 ∧
    hc_check_http_urllib (urlopenOutcome 404 "Not Found") =
      (false, some "Not Found") := by
  exact ⟨by decide, by decide, by decide⟩

/-- Embeds DEFAULT_SERVICES of deploy_config.py (lines 73-157), in
declaration order.  The brace placeholders of the health-check URL
templates are written with \x7b and \x7d escapes. -/
def DEFAULT_SERVICES : List (String × ServiceConfig) :=
  [("homeassistant",
    { name := "Home Assistant",
      description := "State machine for device control",
      default_host := "localhost", default_port := 8123,
      health_check_url := "http://\x7b\x7d:\x7b\x7d/api/",
      required := true, can_use_existing := true }),
   ("postgres",
    { name := "PostgreSQL",
      description := "Database for n8n workflows",
      default_host := "localhost", default_port := 5432,
      health_check_url := "tcp://\x7b\x7d:\x7b\x7d",
      required := true, can_use_existing := true }),
   ("redis",
    { name := "Redis",
      description := "Task queue and caching",
      default_host := "localhost", default_port := 6379,
      health_check_url := "tcp://\x7b\x7d:\x7b\x7d",
      required := false, can_use_existing := true }),
   ("ollama",
    { name := "Ollama",
      description := "Local LLM inference server",
      default_host := "localhost", default_port := 11434,
      health_check_url := "http://\x7b\x7d:\x7b\x7d/api/tags",
      required := true, can_use_existing := true }),
   ("n8n",
    { name := "n8n",
      description := "Workflow orchestration",
      default_host := "localhost", default_port := 5678,
      health_check_url := "http://\x7b\x7d:\x7b\x7d/healthz",
      required := true, can_use_existing := false }),
   ("open-webui",
    { name := "Open WebUI",
      description := "LLM chat interface",
      default_host := "localhost", default_port := 3000,
      health_check_url := "http://\x7b\x7d:\x7b\x7d/v1/models",
      required := true, can_use_existing := true }),
   ("whisper",
    { name := "Whisper STT",
      description := "Speech-to-text service",
      default_host := "localhost", default_port := 10300,
      health_check_url := "tcp://\x7b\x7d:\x7b\x7d",
      required := false, can_use_existing := true }),
   ("piper",
    { name := "Piper TTS",
      description := "Text-to-speech service",
      default_host := "localhost", default_port := 10200,
      health_check_url := "tcp://\x7b\x7d:\x7b\x7d",
      required := false, can_use_existing := true }),
   ("openwakeword",
    { name := "openWakeWord",
      description := "Wake word detection",
      default_host := "localhost", default_port := 10400,
      health_check_url := "tcp://\x7b\x7d:\x7b\x7d",
      required := false, can_use_existing := true })]

/-- Embeds the per-descriptor body of detect_existing_services in
deploy_config.py (lines 266-283).  The two network effects are passed in as
oracles: portOpen models check_port_available and healthCheck models
check_service_health (called, as in the source, on the copy that already
carries the detected fields).  A descriptor with can_use_existing = false
passes through unchanged; otherwise the default host and port are probed
and, when reachable, recorded as detected_host/detected_port; when the
subsequent health check succeeds, use_existing is assigned False. -/
def detectService (portOpen : String → Int → Bool)
    (healthCheck : ServiceConfig → Bool × Option String)
    (tmpl : ServiceConfig) : ServiceConfig :=
  if !tmpl.can_use_existing then tmpl
  else if portOpen tmpl.default_host tmpl.default_port then
    let service := { tmpl with detected_host := some tmpl.default_host,
                               detected_port := some tmpl.default_port }
    if (healthCheck service).1 then { service with use_existing := false }
    else service
  else tmpl

/-- Embeds detect_existing_services of deploy_config.py (lines 257-285):
the catalogue mapped through the per-descriptor detection body. -/
def detect_existing_services (portOpen : String → Int → Bool)
    (healthCheck : ServiceConfig → Bool × Option String) :
    List (String × ServiceConfig) :=
  DEFAULT_SERVICES.map (fun p => (p.1, detectService portOpen healthCheck p.2))

/-- C4 (amended) — for a descriptor whose use_existing is false (every
catalogue template): when can_use_existing is false the descriptor passes
through unchanged; otherwise the default host and port are probed and
detected_host/detected_port are recorded exactly when that port is
reachable — independently of the health-check outcome, which is consulted
but does not gate the recording — and use_existing keeps its value.
(Amended from the claim: the protocol-tier check does not have to confirm
health for the detection to be recorded.) -/
theorem c4_detection (portOpen : String → Int → Bool)
    (healthCheck : ServiceConfig → Bool × Option String)
    (tmpl : ServiceConfig) (hu : tmpl.use_existing = false) :
    detectService portOpen healthCheck tmpl =
      (if tmpl.can_use_existing = false then tmpl
       else if portOpen tmpl.default_host tmpl.default_port then
         { tmpl with detected_host := some tmpl.default_host,
                     detected_port := some tmpl.default_port }
       else tmpl) ∧
    (detectService portOpen healthCheck tmpl).use_existing =
      tmpl.use_existing ∧
    detect_existing_services portOpen healthCheck =
      DEFAULT_SERVICES.map
        (fun p => (p.1, detectService portOpen healthCheck p.2)) := by
  refine ⟨?_, ?_, rfl⟩
  · by_cases hc : tmpl.can_use_existing
    · by_cases hp : portOpen tmpl.default_host tmpl.default_port
      · by_cases hh : (healthCheck { tmpl with
            detected_host := some tmpl.default_host,
            detected_port := some tmpl.default_port }).1 <;>
          simp [detectService, hc, hp, hh, hu]
      · simp [detectService, hc, hp]
    · simp [detectService, hc]
  · by_cases hc : tmpl.can_use_existing
    · by_cases hp : portOpen tmpl.default_host tmpl.default_port
      · by_cases hh : (healthCheck { tmpl with
            detected_host := some tmpl.default_host,
            detected_port := some tmpl.default_port }).1 <;>
          simp [detectService, hc, hp, hh, hu]
      · simp [detectService, hc, hp]
    · simp [detectService, hc]

/-- C4 witness: the theorem applied to the catalogue homeassistant template
with an always-reachable port oracle, discharging the use_existing
hypothesis. -/
theorem c4_detection_witness :
    (detectService (fun _ _ => true) (fun _ => (true, none))
      { name := "Home Assistant",
        description := "State machine for device control",
        default_host := "localhost", default_port := 8123,
        health_check_url := "http://\x7b\x7d:\x7b\x7d/api/",
        required := true, can_use_existing := true }).use_existing = false :=
  ((c4_detection (fun _ _ => true) (fun _ => (true, none))
      { name := "Home Assistant",
        description := "State machine for device control",
        default_host := "localhost", default_port := 8123,
        health_check_url := "http://\x7b\x7d:\x7b\x7d/api/",
        required := true, can_use_existing := true } rfl).2.1).trans rfl

/-- C4 counterexample: with the default port reachable but the protocol-tier
health check failing (for example HTTP 500), detection still records
detected_host and detected_port, refuting the claim that recording happens
only when the health check confirms. -/
theorem c4_counterexample :
    (detectService (fun _ _ => true) (fun _ => (false, some "HTTP 500"))
      { name := "Home Assistant",
        description := "State machine for device control",
        default_host := "localhost", default_port := 8123,
        health_check_url := "http://\x7b\x7d:\x7b\x7d/api/",
        required := true, can_use_existing := true }).detected_port =
      some 8123 ∧
    (detectService (fun _ _ => true) (fun _ => (false, some "HTTP 500"))
      { name := "Home Assistant",
        description := "State machine for device control",
        default_host := "localhost", default_port := 8123,
        health_check_url := "http://\x7b\x7d:\x7b\x7d/api/",
        required := true, can_use_existing := true }).detected_host =
      some "localhost" ∧
    ((fun (_ : ServiceConfig) => (false, some "HTTP 500"))
      { name := "Home Assistant",
        description := "State machine for device control",
        default_host := "localhost", default_port := 8123,
        health_check_url := "http://\x7b\x7d:\x7b\x7d/api/",
        required := true, can_use_existing := true }).1 = false := by
  exact ⟨by decide, by decide, by decide⟩

/-- Embeds the Auto-Detect Services merge loop of lcars_guide.py
(lines 1076-1084): for every key of the live configuration that also occurs
in the discovery result, only detected_host and detected_port are copied
over from the discovery result; every other entry and every other field is
left as it was.  Registries are association lists in catalogue order,
modelling Python dicts (unique keys, insertion order). -/
def mergeDetection (config detected : List (String × ServiceConfig)) :
    List (String × ServiceConfig) :=
  config.map fun p =>
    match List.lookup p.1 detected with
    | some d => (p.1, { p.2 with detected_host := d.detected_host,
                                 detected_port := d.detected_port })
    | none => p

/-- C5 — the merge changes only the detected_host and detected_port fields:
every entry of the merged registry equals the corresponding original entry
with only those two fields replaced, and the replacement values come from
the discovery result when its key matches and are the original values
otherwise. -/
theorem c5_merge_frame (config detected : List (String × ServiceConfig)) :
    List.Forall₂ (fun p q =>
      q = (p.1, { p.2 with detected_host := q.2.detected_host,
                           detected_port := q.2.detected_port }) ∧
      q.2.detected_host = (match List.lookup p.1 detected with
        | some d => d.detected_host
        | none => p.2.detected_host) ∧
      q.2.detected_port = (match List.lookup p.1 detected with
        | some d => d.detected_port
        | none => p.2.detected_port))
      config (mergeDetection config detected) := by
  induction config with
  | nil => exact List.Forall₂.nil
  | cons p rest ih =>
    refine List.Forall₂.cons ?_ ih
    cases h : List.lookup p.1 detected <;> simp [mergeDetection, h]

/-- JSON values as produced by json.dump and consumed by json.load for the
deployment-configuration file: null, booleans, integers, strings and
objects (ordered, string-keyed).  No other JSON shape occurs in this
format. -/
inductive Jval where
  | jnull
  | jbool (b : Bool)
  | jint (n : Int)
  | jstr (s : String)
  | jobj (fields : List (String × Jval))

/-- asdict applied to an Optional[str] field. -/
def joptStr : Option String → Jval
  | none => .jnull
  | some s => .jstr s

/-- asdict applied to an Optional[int] field. -/
def joptInt : Option Int → Jval
  | none => .jnull
  | some n => .jint n

/-- Embeds dataclasses.asdict on a ServiceConfig: the twelve fields in
declaration order. -/
def asdictService (s : ServiceConfig) : List (String × Jval) :=
  [("name", .jstr s.name),
   ("description", .jstr s.description),
   ("default_host", .jstr s.default_host),
   ("default_port", .jint s.default_port),
   ("health_check_url", .jstr s.health_check_url),
   ("required", .jbool s.required),
   ("can_use_existing", .jbool s.can_use_existing),
   ("detected_host", joptStr s.detected_host),
   ("detected_port", joptInt s.detected_port),
   ("use_existing", .jbool s.use_existing),
   ("custom_host", joptStr s.custom_host),
   ("custom_port", joptInt s.custom_port)]

/-- Embeds save_deployment_config of deploy_config.py (lines 453-469) at the
level of the JSON value written: a version field and a services object
holding asdict of every ServiceState in registry order. -/
def save_deployment_config (services : List (String × ServiceConfig)) : Jval :=
  .jobj [("version", .jstr "1.0"),
         ("services",
          .jobj (services.map fun p => (p.1, .jobj (asdictService p.2))))]

/-- The field names of the ServiceConfig dataclass; ServiceConfig(**d)
raises TypeError (caught, yielding None) when d holds any other key. -/
def serviceFieldNames : List String :=
  ["name", "description", "default_host", "default_port", "health_check_url",
   "required", "can_use_existing", "detected_host", "detected_port",
   "use_existing", "custom_host", "custom_port"]

/-- Reads a required str field of the constructor call. -/
def asStr : Option Jval → Option String
  | some (.jstr s) => some s
  | _ => none

/-- Reads a required int field of the constructor call. -/
def asInt : Option Jval → Option Int
  | some (.jint n) => some n
  | _ => none

/-- Reads a required bool field of the constructor call. -/
def asBool : Option Jval → Option Bool
  | some (.jbool b) => some b
  | _ => none

/-- Reads an Optional[str] field: an absent key takes the dataclass default
None, as does an explicit null. -/
def parseOptStr (fields : List (String × Jval)) (k : String) :
    Option (Option String) :=
  match List.lookup k fields with
  | none => some none
  | some .jnull => some none
  | some (.jstr s) => some (some s)
  | some _ => none

/-- Reads an Optional[int] field: an absent key takes the dataclass default
None, as does an explicit null. -/
def parseOptInt (fields : List (String × Jval)) (k : String) :
    Option (Option Int) :=
  match List.lookup k fields with
  | none => some none
  | some .jnull => some none
  | some (.jint n) => some (some n)
  | some _ => none

/-- Reads the use_existing field: an absent key takes the dataclass default
False. -/
def parseUseExisting (fields : List (String × Jval)) : Option Bool :=
  match List.lookup "use_existing" fields with
  | none => some false
  | some (.jbool b) => some b
  | some _ => none

/-- Embeds ServiceConfig(**service_data) as performed by
load_deployment_config: every key of the dict must be a dataclass field and
every required field must be present (and, in this typed embedding, carry a
value of the field's type); defaulted fields fall back to their dataclass
defaults; any violation yields None, as the caught TypeError does. -/
def serviceFromDict (fields : List (String × Jval)) : Option ServiceConfig :=
  if fields.all (fun p => serviceFieldNames.contains p.1) then do
    let name ← asStr (List.lookup "name" fields)
    let description ← asStr (List.lookup "description" fields)
    let default_host ← asStr (List.lookup "default_host" fields)
    let default_port ← asInt (List.lookup "default_port" fields)
    let health_check_url ← asStr (List.lookup "health_check_url" fields)
    let required ← asBool (List.lookup "required" fields)
    let can_use_existing ← asBool (List.lookup "can_use_existing" fields)
    let detected_host ← parseOptStr fields "detected_host"
    let detected_port ← parseOptInt fields "detected_port"
    let use_existing ← parseUseExisting fields
    let custom_host ← parseOptStr fields "custom_host"
    let custom_port ← parseOptInt fields "custom_port"
    pure { name, description, default_host, default_port, health_check_url,
           required, can_use_existing, detected_host, detected_port,
           use_existing, custom_host, custom_port }
  else none

/-- Parses the entries of the services object in order; a non-object entry
or a failing constructor call fails the whole load, as the caught exception
does. -/
def loadEntries : List (String × Jval) → Option (List (String × ServiceConfig))
  | [] => some []
  | (k, .jobj fields) :: rest =>
      match serviceFromDict fields, loadEntries rest with
      | some s, some l => some ((k, s) :: l)
      | _, _ => none
  | _ :: _ => none

/-- Embeds load_deployment_config of deploy_config.py (lines 472-495) at the
level of the JSON value read: data.get("services", {}) iterated in order,
each entry passed to the ServiceConfig constructor; any failure yields
None. -/
def load_deployment_config (j : Jval) :
    Option (List (String × ServiceConfig)) :=
  match j with
  | .jobj top =>
      match (List.lookup "services" top).getD (.jobj []) with
      | .jobj entries => loadEntries entries
      | _ => none
  | _ => none

/-- Parsing asdict of a ServiceConfig reconstructs it exactly. -/
theorem serviceFromDict_asdict (s : ServiceConfig) :
    serviceFromDict (asdictService s) = some s := by
  obtain ⟨name, description, dh, dp, hcu, req, cue, deth, detp, ue, ch, cp⟩ := s
  cases deth <;> cases detp <;> cases ch <;> cases cp <;>
    simp [serviceFromDict, asdictService, serviceFieldNames, joptStr, joptInt,
          parseOptStr, parseOptInt, parseUseExisting, asStr, asInt, asBool,
          List.lookup]

/-- Loading the saved services object entry list reconstructs the list. -/
theorem loadEntries_saved (services : List (String × ServiceConfig)) :
    loadEntries (services.map fun p => (p.1, .jobj (asdictService p.2))) =
      some services := by
  induction services with
  | nil => rfl
  | cons p rest ih =>
    simp [loadEntries, serviceFromDict_asdict, ih]

/-- C6 — round-trip: loading the saved deployment configuration reproduces
the registry identically, every field of every ServiceState under every
key. -/
theorem c6_save_load_roundtrip (services : List (String × ServiceConfig)) :
    load_deployment_config (save_deployment_config services) =
      some services := by
  simp [save_deployment_config, load_deployment_config, List.lookup,
        loadEntries_saved]

/-- Embeds the classification loop of generate_docker_compose_override
(deploy_config.py lines 388-403), in registry order: a service whose
use_existing and can_use_existing are both true joins the disabled list and
is skipped for port overrides; otherwise, when its effective port differs
from its default port, a port-override entry
(key, internal = default port, external = effective port) is emitted. -/
def disabledAndOverrides :
    List (String × ServiceConfig) → List String × List (String × Int × Int)
  | [] => ([], [])
  | (k, s) :: rest =>
      let r := disabledAndOverrides rest
      if s.use_existing && s.can_use_existing then (k :: r.1, r.2)
      else if s.effective_port != s.default_port then
        (r.1, (k, s.default_port, s.effective_port) :: r.2)
      else r

/-- Embeds the disabled-services block (deploy_config.py lines 411-414). -/
def disabledBlock (disabled : List String) : String :=
  String.join (disabled.map fun k =>
    "  " ++ k ++ ":\n    profiles:\n      - disabled\n")

/-- Embeds the n8n dependency rewrite (deploy_config.py lines 419-436):
emitted only when postgres or redis is disabled; the remaining dependency
list keeps postgres then redis when not disabled; an empty remainder is
written as an explicit empty depends_on list. -/
def n8nDependsBlock (disabled : List String) : String :=
  if "postgres" ∈ disabled ∨ "redis" ∈ disabled then
    "  n8n:\n" ++
      (if ((if "postgres" ∈ disabled then ([] : List String)
            else ["postgres"]) ++
           (if "redis" ∈ disabled then [] else ["redis"])).isEmpty then
        "    depends_on: []\n"
       else
        "    depends_on:\n" ++
          String.join
            (((if "postgres" ∈ disabled then ([] : List String)
               else ["postgres"]) ++
              (if "redis" ∈ disabled then [] else ["redis"])).map
              fun dep => "      - " ++ dep ++ "\n"))
  else ""

/-- Embeds the port-override block (deploy_config.py lines 439-442). -/
def portsBlock (overrides : List (String × Int × Int)) : String :=
  String.join (overrides.map fun ov =>
    "  " ++ ov.1 ++ ":\n    ports:\n      - \"" ++ toString ov.2.2 ++ ":" ++
      toString ov.2.1 ++ "\"\n")

/-- Embeds the trailing comment block (deploy_config.py lines 445-448). -/
def disabledComments (services : List (String × ServiceConfig))
    (disabled : List String) : String :=
  if disabled.isEmpty then ""
  else
    "\n# Disabled services (using existing infrastructure):\n" ++
      String.join (disabled.map fun k =>
        "# " ++ k ++ ": Using existing at " ++
          ((List.lookup k services).map ServiceConfig.connection_string).getD ""
          ++ "\n")

/-- Embeds generate_docker_compose_override of deploy_config.py
(lines 377-450): header, disabled-profile assignments, the n8n dependency
rewrite, port remaps and the comment block, concatenated in source order. -/
def generate_docker_compose_override
    (services : List (String × ServiceConfig)) : String :=
  "# LCARS Computer - Deployment Configuration Override\n" ++
  "# Auto-generated - do not edit manually\n\n" ++
  "services:\n" ++
  disabledBlock (disabledAndOverrides services).1 ++
  n8nDependsBlock (disabledAndOverrides services).1 ++
  portsBlock (disabledAndOverrides services).2 ++
  disabledComments services (disabledAndOverrides services).1

/-- The classification loop is the evident pair of filters over the
registry. -/
theorem disabledAndOverrides_eq (services : List (String × ServiceConfig)) :
    disabledAndOverrides services =
      ((services.filter
          (fun p => p.2.use_existing && p.2.can_use_existing)).map Prod.fst,
       (services.filter
          (fun p => !(p.2.use_existing && p.2.can_use_existing) &&
            p.2.effective_port != p.2.default_port)).map
          (fun p => (p.1, p.2.default_port, p.2.effective_port))) := by
  induction services with
  | nil => rfl
  | cons p rest ih =>
    by_cases h1 : p.2.use_existing && p.2.can_use_existing
    · simp [disabledAndOverrides, List.filter, h1, ih]
    · by_cases h2 : p.2.effective_port != p.2.default_port <;>
        simp [disabledAndOverrides, List.filter, h1, h2, ih]

/-- C7 — the n8n dependency rewrite of the generated override: a key is
disabled exactly when its registry entry has use_existing and
can_use_existing both true; the generator emits the rewrite block between
the disabled-profile block and the port remaps; when both postgres and
redis are disabled the block is the explicit empty list "depends_on: []";
when exactly one is disabled the block lists exactly the other; when
neither is disabled no n8n dependency rewrite is emitted. -/
theorem c7_n8n_depends (services : List (String × ServiceConfig)) :
    (∀ k, k ∈ (disabledAndOverrides services).1 ↔
      ∃ s, (k, s) ∈ services ∧ s.use_existing = true ∧
        s.can_use_existing = true) ∧
    (generate_docker_compose_override services =
      "# LCARS Computer - Deployment Configuration Override\n" ++
      "# Auto-generated - do not edit manually\n\n" ++
      "services:\n" ++
      disabledBlock (disabledAndOverrides services).1 ++
      n8nDependsBlock (disabledAndOverrides services).1 ++
      portsBlock (disabledAndOverrides services).2 ++
      disabledComments services (disabledAndOverrides services).1) ∧
    ("postgres" ∈ (disabledAndOverrides services).1 ∧
        "redis" ∈ (disabledAndOverrides services).1 →
      n8nDependsBlock (disabledAndOverrides services).1 =
        "  n8n:\n    depends_on: []\n") ∧
    ("postgres" ∈ (disabledAndOverrides services).1 ∧
        "redis" ∉ (disabledAndOverrides services).1 →
      n8nDependsBlock (disabledAndOverrides services).1 =
        "  n8n:\n    depends_on:\n      - redis\n") ∧
    ("postgres" ∉ (disabledAndOverrides services).1 ∧
        "redis" ∈ (disabledAndOverrides services).1 →
      n8nDependsBlock (disabledAndOverrides services).1 =
        "  n8n:\n    depends_on:\n      - postgres\n") ∧
    ("postgres" ∉ (disabledAndOverrides services).1 ∧
        "redis" ∉ (disabledAndOverrides services).1 →
      n8nDependsBlock (disabledAndOverrides services).1 = "") := by
  refine ⟨?_, rfl, ?_, ?_, ?_, ?_⟩
  · intro k
    rw [disabledAndOverrides_eq]
    simp only [List.mem_map, List.mem_filter]
    constructor
    · rintro ⟨⟨k2, s⟩, ⟨hm, hflag⟩, rfl⟩
      simp only [Bool.and_eq_true] at hflag
      exact ⟨s, hm, hflag.1, hflag.2⟩
    · rintro ⟨s, hm, h1, h2⟩
      exact ⟨(k, s), ⟨hm, by simp [h1, h2]⟩, rfl⟩
  · rintro ⟨h1, h2⟩
    simp [n8nDependsBlock, h1, h2]
  · rintro ⟨h1, h2⟩
    simp [n8nDependsBlock, h1, h2, String.join]
  · rintro ⟨h1, h2⟩
    simp [n8nDependsBlock, h1, h2, String.join]
  · rintro ⟨h1, h2⟩
    simp [n8nDependsBlock, h1, h2]

/-- C7 witness: the theorem applied to concrete registries in which both,
one, or neither of postgres and redis are bound to existing
infrastructure. -/
theorem c7_n8n_depends_witness :
    n8nDependsBlock (disabledAndOverrides
      [("postgres",
        { name := "PostgreSQL", description := "", default_host := "localhost",
          default_port := 5432, health_check_url := "", required := true,
          can_use_existing := true, use_existing := true }),
       ("redis",
        { name := "Redis", description := "", default_host := "localhost",
          default_port := 6379, health_check_url := "", required := false,
          can_use_existing := true, use_existing := true })]).1 =
      "  n8n:\n    depends_on: []\n" ∧
    n8nDependsBlock (disabledAndOverrides
      [("postgres",
        { name := "PostgreSQL", description := "", default_host := "localhost",
          default_port := 5432, health_check_url := "", required := true,
          can_use_existing := true, use_existing := true }),
       ("redis",
        { name := "Redis", description := "", default_host := "localhost",
          default_port := 6379, health_check_url := "", required := false,
          can_use_existing := true, use_existing := false })]).1 =
      "  n8n:\n    depends_on:\n      - redis\n" ∧
    n8nDependsBlock (disabledAndOverrides
      [("postgres",
        { name := "PostgreSQL", description := "", default_host := "localhost",
          default_port := 5432, health_check_url := "", required := true,
          can_use_existing := true, use_existing := false })]).1 = "" := by
  refine ⟨?_, ?_, ?_⟩
  · exact (c7_n8n_depends
      [("postgres",
        { name := "PostgreSQL", description := "", default_host := "localhost",
          default_port := 5432, health_check_url := "", required := true,
          can_use_existing := true, use_existing := true }),
       ("redis",
        { name := "Redis", description := "", default_host := "localhost",
          default_port := 6379, health_check_url := "", required := false,
          can_use_existing := true, use_existing := true })]).2.2.1
      ⟨by decide, by decide⟩
  · exact (c7_n8n_depends
      [("postgres",
        { name := "PostgreSQL", description := "", default_host := "localhost",
          default_port := 5432, health_check_url := "", required := true,
          can_use_existing := true, use_existing := true }),
       ("redis",
        { name := "Redis", description := "", default_host := "localhost",
          default_port := 6379, health_check_url := "", required := false,
          can_use_existing := true, use_existing := false })]).2.2.2.1
      ⟨by decide, by decide⟩
  · exact (c7_n8n_depends
      [("postgres",
        { name := "PostgreSQL", description := "", default_host := "localhost",
          default_port := 5432, health_check_url := "", required := true,
          can_use_existing := true, use_existing := false })]).2.2.2.2.2
      ⟨by decide, by decide⟩

/-- In a registry with pairwise-distinct keys — the Python dict invariant —
two entries sharing a key are the same entry. -/
theorem keysNodup_entry_eq {l : List (String × ServiceConfig)}
    (h : (l.map Prod.fst).Nodup) {k : String} {s1 s2 : ServiceConfig}
    (h1 : (k, s1) ∈ l) (h2 : (k, s2) ∈ l) : s1 = s2 := by
  induction l with
  | nil => cases h1
  | cons p rest ih =>
    obtain ⟨pk, ps⟩ := p
    simp only [List.map_cons, List.nodup_cons] at h
    rcases List.mem_cons.mp h1 with e1 | m1 <;>
      rcases List.mem_cons.mp h2 with e2 | m2
    · rw [Prod.mk.injEq] at e1 e2
      exact e1.2.trans e2.2.symm
    · rw [Prod.mk.injEq] at e1
      have hk : k ∈ List.map Prod.fst rest := List.mem_map.mpr ⟨(k, s2), m2, rfl⟩
      rw [e1.1] at hk
      exact absurd hk h.1
    · rw [Prod.mk.injEq] at e2
      have hk : k ∈ List.map Prod.fst rest := List.mem_map.mpr ⟨(k, s1), m1, rfl⟩
      rw [e2.1] at hk
      exact absurd hk h.1
    · exact ih h.2 m1 m2

/-- C10 — for every registry with unique keys, a service key placed in the
disabled grouping of the generated override never also receives a port
remap entry: the two emissions are mutually exclusive per service. -/
theorem c10_disabled_not_remapped (services : List (String × ServiceConfig))
    (hnd : (services.map Prod.fst).Nodup) :
    ∀ k, k ∈ (disabledAndOverrides services).1 →
      k ∉ ((disabledAndOverrides services).2.map fun ov => ov.1) := by
  intro k hdis hover
  rw [disabledAndOverrides_eq] at hdis hover
  simp only [List.map_map, List.mem_map, List.mem_filter,
    Function.comp] at hdis hover
  obtain ⟨⟨k1, s1⟩, ⟨hm1, hf1⟩, hk1⟩ := hdis
  obtain ⟨⟨k2, s2⟩, ⟨hm2, hf2⟩, hk2⟩ := hover
  simp only at hk1 hk2
  subst hk1
  subst hk2
  have hs : s1 = s2 := keysNodup_entry_eq hnd hm1 hm2
  subst hs
  rw [hf1] at hf2
  simp at hf2

/-- C10 witness: the theorem applied to a concrete registry in which redis
is disabled while carrying a custom port differing from its default. -/
theorem c10_disabled_not_remapped_witness :
    "redis" ∉ ((disabledAndOverrides
      [("redis",
        { name := "Redis", description := "", default_host := "localhost",
          default_port := 6379, health_check_url := "", required := false,
          can_use_existing := true, use_existing := true,
          custom_port := some 7000 })]).2.map fun ov => ov.1) :=
  c10_disabled_not_remapped
    [("redis",
      { name := "Redis", description := "", default_host := "localhost",
        default_port := 6379, health_check_url := "", required := false,
        can_use_existing := true, use_existing := true,
        custom_port := some 7000 })]
    (by decide) "redis" (by decide)

/-- Embeds an entry of the SERVICES table of health_check.py
(lines 44-108): probe URL (None for port-only services), container name,
port, criticality flag and description. -/
structure HCService where
  url : Option String
  container : String
  port : Int
  critical : Bool
  description : String
deriving Repr, DecidableEq

/-- Embeds the ServiceStatus dataclass of health_check.py (lines 111-126).
The response-time field, a wall-clock measurement, is omitted. -/
structure ServiceStatus where
  name : String
  description : String
  container_running : Bool
  port_open : Bool
  http_ok : Option Bool
  error_message : Option String
  critical : Bool
deriving Repr, DecidableEq

/-- Embeds ServiceStatus.healthy (health_check.py lines 123-126): container
running and port open; the HTTP result plays no part. -/
def ServiceStatus.healthy (s : ServiceStatus) : Bool :=
  s.container_running && s.port_open

/-- Embeds check_service of health_check.py (lines 361-399) with the three
probes passed in as oracles (container introspection, TCP port probe, HTTP
probe); the HTTP probe runs only when a URL is configured and truthy. -/
def check_service (containerRunning : String → Bool)
    (portOpen : Int → Bool) (httpProbe : String → Bool × Option String)
    (name : String) (config : HCService) : ServiceStatus :=
  let cr := containerRunning config.container
  let po := portOpen config.port
  if strTruthy config.url then
    { name, description := config.description, container_running := cr,
      port_open := po, http_ok := some (httpProbe (config.url.getD "")).1,
      error_message := (httpProbe (config.url.getD "")).2,
      critical := config.critical }
  else
    { name, description := config.description, container_running := cr,
      port_open := po, http_ok := none, error_message := none,
      critical := config.critical }

/-- Embeds the aggregation loop of run_health_check (health_check.py
lines 416-441): per-service statuses in table order, all_healthy falsified
by any unhealthy service, critical_healthy falsified by any unhealthy
critical service. -/
def run_health_check (containerRunning : String → Bool)
    (portOpen : Int → Bool) (httpProbe : String → Bool × Option String) :
    List (String × HCService) →
      List (String × ServiceStatus) × Bool × Bool
  | [] => ([], true, true)
  | (n, c) :: rest =>
      let st := check_service containerRunning portOpen httpProbe n c
      let r := run_health_check containerRunning portOpen httpProbe rest
      ((n, st) :: r.1,
       st.healthy && r.2.1,
       (st.healthy || !st.critical) && r.2.2)

/-- Embeds the exit-code selection of main (health_check.py lines 564-571):
2 when critical_healthy is false, else 1 when all_healthy is false, else
0. -/
def healthExitCode (all_healthy critical_healthy : Bool) : Nat :=
  if !critical_healthy then 2
  else if !all_healthy then 1
  else 0

/-- C8 — a service is healthy iff its container-running and port-open checks
both hold, and the HTTP result never affects this predicate; all_healthy is
the conjunction of healthy over all reported services and critical_healthy
the conjunction over the critical ones; the CLI exits 0 exactly when every
service is healthy, 1 exactly when every critical service is healthy but
some service is not, and 2 exactly when some critical service is
unhealthy. -/
theorem c8_health_aggregation (containerRunning : String → Bool)
    (portOpen : Int → Bool) (httpProbe : String → Bool × Option String)
    (services : List (String × HCService)) :
    (∀ st : ServiceStatus, st.healthy = (st.container_running && st.port_open)) ∧
    (∀ st : ServiceStatus, ∀ b : Option Bool,
      ServiceStatus.healthy { st with http_ok := b } = st.healthy) ∧
    ((run_health_check containerRunning portOpen httpProbe services).2.1 =
      (run_health_check containerRunning portOpen httpProbe
        services).1.all (fun p => p.2.healthy)) ∧
    ((run_health_check containerRunning portOpen httpProbe services).2.2 =
      ((run_health_check containerRunning portOpen httpProbe
        services).1.filter (fun p => p.2.critical)).all
          (fun p => p.2.healthy)) ∧
    (healthExitCode
        (run_health_check containerRunning portOpen httpProbe services).2.1
        (run_health_check containerRunning portOpen httpProbe services).2.2 =
          0 ↔
      ∀ p ∈ (run_health_check containerRunning portOpen httpProbe
        services).1, p.2.healthy = true) ∧
    (healthExitCode
        (run_health_check containerRunning portOpen httpProbe services).2.1
        (run_health_check containerRunning portOpen httpProbe services).2.2 =
          1 ↔
      ((∀ p ∈ (run_health_check containerRunning portOpen httpProbe
          services).1, p.2.critical = true → p.2.healthy = true) ∧
        ¬ ∀ p ∈ (run_health_check containerRunning portOpen httpProbe
          services).1, p.2.healthy = true)) ∧
    (healthExitCode
        (run_health_check containerRunning portOpen httpProbe services).2.1
        (run_health_check containerRunning portOpen httpProbe services).2.2 =
          2 ↔
      ¬ ∀ p ∈ (run_health_check containerRunning portOpen httpProbe
        services).1, p.2.critical = true → p.2.healthy = true) := by
  have hall : ∀ l : List (String × HCService),
      (run_health_check containerRunning portOpen httpProbe l).2.1 =
        (run_health_check containerRunning portOpen httpProbe l).1.all
          (fun p => p.2.healthy) := by
    intro l
    induction l with
    | nil => rfl
    | cons p rest ih => simp [run_health_check, ih]
  have hcrit : ∀ l : List (String × HCService),
      (run_health_check containerRunning portOpen httpProbe l).2.2 =
        ((run_health_check containerRunning portOpen httpProbe l).1.filter
          (fun p => p.2.critical)).all (fun p => p.2.healthy) := by
    intro l
    induction l with
    | nil => rfl
    | cons p rest ih =>
      by_cases hc : (check_service containerRunning portOpen httpProbe
          p.1 p.2).critical <;>
        by_cases hh : (check_service containerRunning portOpen httpProbe
          p.1 p.2).healthy <;>
        simp [run_health_check, List.filter, ih, hc, hh]
  have hallIff :
      ((run_health_check containerRunning portOpen httpProbe
        services).2.1 = true ↔
      ∀ p ∈ (run_health_check containerRunning portOpen httpProbe
        services).1, p.2.healthy = true) := by
    rw [hall]
    exact List.all_eq_true
  have hcritIff :
      ((run_health_check containerRunning portOpen httpProbe
        services).2.2 = true ↔
      ∀ p ∈ (run_health_check containerRunning portOpen httpProbe
        services).1, p.2.critical = true → p.2.healthy = true) := by
    rw [hcrit]
    constructor
    · intro h p hp hcb
      exact List.all_eq_true.mp h p (List.mem_filter.mpr ⟨hp, hcb⟩)
    · intro h
      refine List.all_eq_true.mpr fun p hp => ?_
      exact h p (List.mem_filter.mp hp).1 (List.mem_filter.mp hp).2
  have hMono :
      (∀ p ∈ (run_health_check containerRunning portOpen httpProbe
        services).1, p.2.healthy = true) →
      ∀ p ∈ (run_health_check containerRunning portOpen httpProbe
        services).1, p.2.critical = true → p.2.healthy = true :=
    fun h p hp _ => h p hp
  have hcode0 : ∀ a c : Bool, (healthExitCode a c = 0 ↔ a = true ∧ c = true) := by
    decide
  have hcode1 : ∀ a c : Bool, (healthExitCode a c = 1 ↔ a = false ∧ c = true) := by
    decide
  have hcode2 : ∀ a c : Bool, (healthExitCode a c = 2 ↔ c = false) := by
    decide
  refine ⟨fun st => rfl, fun st b => rfl, hall services, hcrit services,
    ?_, ?_, ?_⟩
  · rw [hcode0]
    constructor
    · rintro ⟨hA, _⟩
      exact hallIff.mp hA
    · intro h
      exact ⟨hallIff.mpr h, hcritIff.mpr (hMono h)⟩
  · rw [hcode1]
    constructor
    · rintro ⟨hA, hC⟩
      refine ⟨hcritIff.mp hC, fun h => ?_⟩
      rw [hallIff.mpr h] at hA
      exact absurd hA (by decide)
    · rintro ⟨hc, hna⟩
      refine ⟨?_, hcritIff.mpr hc⟩
      cases hA2 : (run_health_check containerRunning portOpen httpProbe
          services).2.1 with
      | true => exact absurd (hallIff.mp hA2) hna
      | false => rfl
  · rw [hcode2]
    constructor
    · intro hC h
      rw [hcritIff.mpr h] at hC
      exact absurd hC (by decide)
    · intro h
      cases hC2 : (run_health_check containerRunning portOpen httpProbe
          services).2.2 with
      | true => exact absurd (hcritIff.mp hC2) h
      | false => rfl

/-- Models Python str.startswith through the character lists of the two
strings. -/
def pyStartsWith (s pre : String) : Bool :=
  pre.toList.isPrefixOf s.toList

/-- A line whose str.strip() is empty: every character is ASCII
whitespace. -/
def pyBlank (s : String) : Bool :=
  s.toList.all fun c =>
    c == ' ' || c == '\t' || c == '\n' || c == '\r' || c == '\x0b' ||
      c == '\x0c'

/-- Embeds upsert_env_var of lcars_guide.py (lines 167-190) on the line list
of the file: every line starting with key followed by an equals sign is
replaced by the new KEY=VALUE line; when none is, the line is appended —
preceded by one blank separator line when the file is non-empty and its
last line is not blank. -/
def upsert_env_var (lines : List String) (key value : String) : List String :=
  let newLines := lines.map fun line =>
    if pyStartsWith line (key ++ "=") then key ++ "=" ++ value else line
  let replaced := lines.any fun line => pyStartsWith line (key ++ "=")
  if replaced then newLines
  else if !newLines.isEmpty && !pyBlank (newLines.getLastD "") then
    newLines ++ ["", key ++ "=" ++ value]
  else newLines ++ [key ++ "=" ++ value]

/-- Embeds the final write of upsert_env_var: the lines joined with
newlines, followed by one trailing newline. -/
def upsertText (lines : List String) (key value : String) : String :=
  String.intercalate "\n" (upsert_env_var lines key value) ++ "\n"

/-- A key that is a proper prefix of the equals-free key of a line never
matches the replacement test of the upsert. -/
theorem notStartsWith_of_properKey {line bigKey rest key : String}
    (hline : line = bigKey ++ "=" ++ rest)
    (hnoeq : ('=' : Char) ∉ bigKey.toList)
    (hpre : key.toList ≠ bigKey.toList)
    (hpre2 : key.toList.IsPrefix bigKey.toList) :
    pyStartsWith line (key ++ "=") = false := by
  obtain ⟨d, hd⟩ := hpre2
  by_contra hcon
  rw [Bool.not_eq_false, pyStartsWith] at hcon
  have hc : (key ++ "=").toList.IsPrefix line.toList :=
    List.isPrefixOf_iff_prefix.mp hcon
  obtain ⟨t, ht⟩ := hc
  rw [hline] at ht
  have hkey : (key ++ "=").toList = key.toList ++ ['='] := by
    simp [String.toList, String.data_append]
  have hbig : (bigKey ++ "=" ++ rest).toList =
      bigKey.toList ++ '=' :: rest.toList := by
    simp [String.toList, String.data_append]
  rw [hkey, hbig, ← hd] at ht
  cases d with
  | nil =>
    exact hpre (by rw [← hd, List.append_nil])
  | cons c d2 =>
    rw [List.append_assoc, List.append_assoc] at ht
    have := List.append_cancel_left ht
    have hc2 : ('=' : Char) = c := by
      have h0 := congrArg (fun l => l.head?) this
      simpa using h0
    have : c ∈ bigKey.toList := by
      rw [← hd]
      exact List.mem_append_right _ (List.mem_cons_self c d2)
    rw [← hc2] at this
    exact hnoeq this

/-- C9 (amended) — the env-file upsert: when some line matches the key, the
output is the input with exactly the matching lines rewritten to KEY=VALUE,
all other lines unchanged in place; when no line matches, the output is the
input followed by KEY=VALUE, preceded by one blank separator line when the
file was non-empty with a non-blank last line (this separator is the
amendment to the claim); the written file always ends with a trailing
newline; and a line whose own equals-free key properly extends the given
key never matches, so it is preserved unchanged. -/
theorem c9_upsert (lines : List String) (key value : String) :
    ((lines.any fun line => pyStartsWith line (key ++ "=")) = true →
      upsert_env_var lines key value =
        lines.map fun line =>
          if pyStartsWith line (key ++ "=") then key ++ "=" ++ value
          else line) ∧
    ((lines.any fun line => pyStartsWith line (key ++ "=")) = false →
      upsert_env_var lines key value =
        lines ++
          (if lines ≠ [] ∧ pyBlank (lines.getLastD "") = false then [""]
           else []) ++ [key ++ "=" ++ value]) ∧
    (∃ t : String, upsertText lines key value = t ++ "\n") ∧
    (∀ line bigKey rest : String, line = bigKey ++ "=" ++ rest →
      ('=' : Char) ∉ bigKey.toList → key.toList ≠ bigKey.toList →
      key.toList.IsPrefix bigKey.toList →
      pyStartsWith line (key ++ "=") = false) := by
  refine ⟨?_, ?_, ⟨_, rfl⟩, fun line bigKey rest h1 h2 h3 h4 =>
    notStartsWith_of_properKey h1 h2 h3 h4⟩
  · intro h
    simp only [upsert_env_var, h]
    rfl
  · intro h
    have hmap : (lines.map fun line =>
        if pyStartsWith line (key ++ "=") then key ++ "=" ++ value
        else line) = lines := by
      have hall := List.any_eq_false.mp h
      have hfix : ∀ x ∈ lines,
          (if pyStartsWith x (key ++ "=") then key ++ "=" ++ value else x) =
            x := by
        intro x hx
        simp [hall x hx]
      rw [List.map_congr_left hfix]
      simp
    simp only [upsert_env_var, h, hmap, Bool.false_eq_true, if_false]
    by_cases hc : lines = []
    · subst hc
      simp
    · by_cases hb : pyBlank (lines.getLastD "") = true
      · simp only [List.getLastD_eq_getLast?] at hb
        simp [hc, hb, List.isEmpty_iff]
      · simp only [Bool.not_eq_true] at hb
        simp only [List.getLastD_eq_getLast?] at hb
        simp [hc, hb, List.isEmpty_iff]

/-- C9 witness: the theorem applied at concrete files — a replacement, an
append after a blank last line, and a longer key left untouched by a
shorter one. -/
theorem c9_upsert_witness :
    (upsert_env_var ["A=1", "B=2"] "A" "9" = ["A=9", "B=2"]) ∧
    (upsert_env_var ["A=1", ""] "B" "2" = ["A=1", "", "B=2"]) ∧
    (pyStartsWith "FOOBAR=x" "FOO=" = false) := by
  refine ⟨?_, ?_, ?_⟩
  · exact ((c9_upsert ["A=1", "B=2"] "A" "9").1 (by decide)).trans (by decide)
  · exact ((c9_upsert ["A=1", ""] "B" "2").2.1 (by decide)).trans (by decide)
  · exact (c9_upsert [] "FOO" "x").2.2.2 "FOOBAR=x" "FOOBAR" "x" (by decide)
      (by decide) (by decide) (by decide)

/-- C9 counterexample: appending to a file whose last line is non-blank
inserts a blank separator line that is neither a pre-existing line nor the
KEY=VALUE line, refuting the claim that exactly the line for the key is
inserted. -/
theorem c9_counterexample :
    upsert_env_var ["A=1"] "B" "2" = ["A=1", "", "B=2"] ∧
    ("" : String) ∉ ["A=1"] ∧ ("" : String) ≠ "B=2" := by
  exact ⟨by decide, by decide, by decide⟩

/-- C8 witness: the aggregate equations of the theorem at a concrete
catalogue and concrete probe oracles. -/
theorem c8_health_aggregation_witness :
    ((run_health_check (fun _ => true) (fun p => p == (8123 : Int))
        (fun _ => (true, none))
        [("homeassistant",
          { url := some "http://localhost:8123/api/",
            container := "LCARS-homeassistant", port := 8123,
            critical := true,
            description := "Home Assistant - State Machine" }),
         ("postgres",
          { url := none, container := "LCARS-postgres", port := 5432,
            critical := true,
            description := "PostgreSQL - Workflow Database" })]).2.1 =
      (run_health_check (fun _ => true) (fun p => p == (8123 : Int))
        (fun _ => (true, none))
        [("homeassistant",
          { url := some "http://localhost:8123/api/",
            container := "LCARS-homeassistant", port := 8123,
            critical := true,
            description := "Home Assistant - State Machine" }),
         ("postgres",
          { url := none, container := "LCARS-postgres", port := 5432,
            critical := true,
            description := "PostgreSQL - Workflow Database" })]).1.all
        (fun p => p.2.healthy)) :=
  (c8_health_aggregation (fun _ => true) (fun p => p == (8123 : Int))
    (fun _ => (true, none))
    [("homeassistant",
      { url := some "http://localhost:8123/api/",
        container := "LCARS-homeassistant", port := 8123,
        critical := true,
        description := "Home Assistant - State Machine" }),
     ("postgres",
      { url := none, container := "LCARS-postgres", port := 5432,
        critical := true,
        description := "PostgreSQL - Workflow Database" })]).2.2.1

end LCARS
